import Mathlib

/-!
Verification development for the mcp-noob-toolkit repository: shallow
embeddings of the Gmail, Jira, Calendar and Video MCP tool servers and
their helper classes, together with theorems settling the behavioural
claims about error handling, history pagination, label updates and
route construction.

Python dictionaries coming from external APIs are modelled as structures
whose possibly-missing keys are Option fields; Python exceptions are
modelled with Except; the outcomes of vendor SDK and HTTP calls are
passed in as explicit parameters; the filesystem is a total map from
path strings to optional file contents.
-/

/-- Python truthiness of an optional string: None and the empty string
are falsy, every other string is truthy. -/
def optStrTruthy : Option String → Bool
  | none => false
  | some s => s != ""

/-- Leading and trailing whitespace removal on a character list. -/
def stripChars (cs : List Char) : List Char :=
  ((cs.dropWhile Char.isWhitespace).reverse.dropWhile Char.isWhitespace).reverse

/-- The Python str.strip() call of load_history_id: remove leading and
trailing whitespace from the string. -/
def pyStrip (s : String) : String := String.mk (stripChars s.data)

/-- The filesystem, as a map from paths to file contents. -/
def FileSystem : Type := String → Option String

/-- Writing a file replaces its whole content. -/
def fsWrite (fs : FileSystem) (path contents : String) : FileSystem :=
  fun p => if p = path then some contents else fs p

namespace GmailHelper

/-- Embedded result of GmailHelper.save_history_id: the dict with
success flag and error, as in helper.py lines 575-600. -/
structure SaveResult where
  success : Bool
  error : Option String
  deriving Repr, DecidableEq

/-- Embedded result of GmailHelper.load_history_id (helper.py 602-632). -/
structure LoadResult where
  history_id : Option String
  error : Option String
  deriving Repr, DecidableEq

/-- GmailHelper.save_history_id (helper.py 575-600): opens the file for
writing and writes str(history_id); the input is already a string so
str is the identity.  The except branch catches OS faults, which are
outside the pure filesystem model, so the write succeeds. -/
def save_history_id (fs : FileSystem) (history_id : String)
    (file_path : String := "gmail_mcp_tool/last_history_id.txt") :
    FileSystem × SaveResult :=
  (fsWrite fs file_path history_id, { success := true, error := none })

/-- GmailHelper.load_history_id (helper.py 602-632): if the file exists
its content is read and stripped of surrounding whitespace; otherwise a
no-file error is returned. -/
def load_history_id (fs : FileSystem)
    (file_path : String := "gmail_mcp_tool/last_history_id.txt") :
    LoadResult :=
  match fs file_path with
  | some contents => { history_id := some (pyStrip contents), error := none }
  | none =>
      { history_id := none,
        error := some ("No history ID file found at " ++ file_path) }

/-- A message reference inside a history change entry: the dict
msg.get("message", \x7b\x7d) with its optional id, threadId and the
labelIds list defaulting to empty. -/
structure MessageRefData where
  mid : Option String
  threadId : Option String
  labelIds : List String
  deriving Repr, DecidableEq

/-- One entry of a messagesAdded / messagesDeleted / labelsAdded /
labelsRemoved list in a Gmail history record: the optional message dict
and, for the label change lists, the labelIds of the entry itself. -/
structure HistoryChangeItem where
  message : Option MessageRefData
  labelIds : List String
  deriving Repr, DecidableEq

/-- A Gmail history record as returned by history().list.  The id field
is indexed directly by the helper (history[-1]["id"]), so it is kept as
a plain string; the four change lists model optional dict keys. -/
structure HistoryRecord where
  hid : String
  messagesAdded : Option (List HistoryChangeItem)
  messagesDeleted : Option (List HistoryChangeItem)
  labelsAdded : Option (List HistoryChangeItem)
  labelsRemoved : Option (List HistoryChangeItem)
  deriving Repr, DecidableEq

/-- One response page of the history().list endpoint: its history
records (defaulting to the empty list) and the optional nextPageToken. -/
structure HistoryPage where
  history : List HistoryRecord
  nextPageToken : Option String
  deriving Repr, DecidableEq

/-- The Gmail user profile, of which get_history reads historyId via
profile.get("historyId"). -/
structure GmailProfile where
  historyId : Option String
  deriving Repr, DecidableEq

/-- Embedded result of GmailHelper.get_history, instrumented with the
number of history().list requests issued (listCalls). -/
structure HistoryResult where
  history : List HistoryRecord
  latest_history_id : Option String
  error : Option String
  listCalls : Nat
  deriving Repr, DecidableEq

/-- The pagination loop of get_history (helper.py 692-704): tok is the
nextPageToken of the latest response; while it is present the next
response is consumed and its records appended to the accumulator.  The
successive API responses are supplied as the list rest; requesting a
page beyond the supplied responses models the API call raising.  The
Nat counts history().list requests issued. -/
def historyLoopAux : Option String → List HistoryPage →
    List HistoryRecord → Nat → Except String (List HistoryRecord) × Nat
  | none, _, acc, n => (Except.ok acc, n)
  | some _, [], _, n => (Except.error "history list request failed", n + 1)
  | some _, q :: rest2, acc, n =>
      historyLoopAux q.nextPageToken rest2 (acc ++ q.history) (n + 1)

/-- The initial history().list call followed by the pagination loop:
pages is the sequence of successive API responses; an empty sequence
models the initial call raising. -/
def historyPaginate (pages : List HistoryPage) :
    Except String (List HistoryRecord) × Nat :=
  match pages with
  | [] => (Except.error "history list request failed", 1)
  | p :: rest => historyLoopAux p.nextPageToken rest p.history 1

/-- GmailHelper.get_history (helper.py 634-723).  authOk is the outcome
of the service check / authenticate call; profileOutcome the outcome of
users().getProfile in the baseline branch; pages the successive
history().list responses.  A falsy (None or empty) start_history_id
takes the baseline branch, which issues no history().list call. -/
def get_history (authOk : Bool) (start_history_id : Option String)
    (profileOutcome : Except String GmailProfile)
    (pages : List HistoryPage) : HistoryResult :=
  if ¬ authOk then
    { history := [], latest_history_id := none,
      error := some "Failed to authenticate with Gmail", listCalls := 0 }
  else if ¬ optStrTruthy start_history_id then
    match profileOutcome with
    | Except.ok prof =>
        { history := [], latest_history_id := prof.historyId,
          error := none, listCalls := 0 }
    | Except.error e =>
        { history := [], latest_history_id := none,
          error := some ("Error getting latest historyId: " ++ e),
          listCalls := 0 }
  else
    match historyPaginate pages with
    | (Except.error e, n) =>
        { history := [], latest_history_id := none,
          error := some ("Error retrieving history: " ++ e), listCalls := n }
    | (Except.ok hist, n) =>
        { history := hist,
          latest_history_id :=
            some (((hist.getLast?).map HistoryRecord.hid).getD
              (start_history_id.getD "")),
          error := none, listCalls := n }

/-- A message reference returned by users().messages().list. -/
structure MsgRef where
  mrid : String
  deriving Repr, DecidableEq

/-- One raw header of a message payload. -/
structure RawHeader where
  hname : String
  hvalue : String
  deriving Repr, DecidableEq

/-- The raw message returned by users().messages().get with metadata
format: the payload headers and the optional snippet. -/
structure RawMessage where
  payloadHeaders : List RawHeader
  snippet : Option String
  deriving Repr, DecidableEq

/-- A processed message as built by list_messages (helper.py 169-173). -/
structure ProcessedMessage where
  pid : String
  headers : List (String × String)
  snippet : String
  deriving Repr, DecidableEq

/-- Embedded result of GmailHelper.list_messages. -/
structure ListMessagesResult where
  messages : List ProcessedMessage
  error : Option String
  deriving Repr, DecidableEq

/-- Assignment d[k] = v on an insertion-ordered Python dict rendered as
an association list: an existing binding is overwritten in place, a new
key is appended. -/
def dictInsert (d : List (String × String)) (k v : String) :
    List (String × String) :=
  if d.any (fun kv => kv.1 = k) then
    d.map (fun kv => if kv.1 = k then (k, v) else kv)
  else d ++ [(k, v)]

/-- The header extraction loop of list_messages (helper.py 164-167):
headers whose name is Subject, From or Date are collected into a dict. -/
def extractHeaders (hs : List RawHeader) : List (String × String) :=
  hs.foldl
    (fun d h =>
      if h.hname = "Subject" ∨ h.hname = "From" ∨ h.hname = "Date" then
        dictInsert d h.hname h.hvalue
      else d) []

/-- Processing of one message in list_messages (helper.py 154-173). -/
def processMessage (r : MsgRef) (msg : RawMessage) : ProcessedMessage :=
  { pid := r.mrid,
    headers := extractHeaders msg.payloadHeaders,
    snippet := msg.snippet.getD "" }

/-- GmailHelper.list_messages (helper.py 120-194).  listOutcome is the
outcome of users().messages().list; getOutcome maps each message id to
the outcome of its users().messages().get call, a failing get being
logged and skipped. -/
def list_messages (authOk : Bool) (query : String)
    (listOutcome : Except String (List MsgRef))
    (getOutcome : String → Except String RawMessage) : ListMessagesResult :=
  if ¬ authOk then
    { messages := [], error := some "Failed to authenticate with Gmail" }
  else
    match listOutcome with
    | Except.error e =>
        { messages := [], error := some ("Error listing messages: " ++ e) }
    | Except.ok refs =>
      if refs.isEmpty then
        { messages := [],
          error := some ("No messages found matching query: " ++ query) }
      else
        let processed := refs.filterMap (fun r =>
          match getOutcome r.mrid with
          | Except.ok m => some (processMessage r m)
          | Except.error _ => none)
        if processed.isEmpty then
          { messages := [],
            error := some "No messages could be processed successfully" }
        else
          { messages := processed, error := none }

/-- The color dict of a Gmail label, with possibly missing entries. -/
structure GmailLabelColor where
  textColor : Option String
  backgroundColor : Option String
  deriving Repr, DecidableEq

/-- A Gmail label as returned by users().labels().list; all keys read
via .get are optional. -/
structure GmailLabel where
  lid : Option String
  lname : Option String
  messageListVisibility : Option String
  labelListVisibility : Option String
  color : Option GmailLabelColor
  deriving Repr, DecidableEq

/-- Embedded result of GmailHelper.list_labels (helper.py 954-990). -/
structure ListLabelsResult where
  labels : List GmailLabel
  error : Option String
  deriving Repr, DecidableEq

/-- GmailHelper.list_labels (helper.py 954-990): authenticate if needed,
then return the labels of the API response or the wrapped exception. -/
def list_labels (authOk : Bool)
    (apiOutcome : Except String (List GmailLabel)) : ListLabelsResult :=
  if ¬ authOk then
    { labels := [], error := some "Failed to authenticate with Gmail" }
  else
    match apiOutcome with
    | Except.ok labels => { labels := labels, error := none }
    | Except.error e =>
        { labels := [], error := some ("Error listing labels: " ++ e) }

/-- Embedded result of GmailHelper.update_label (helper.py 1050-1092). -/
structure UpdateLabelResult where
  label : Option GmailLabel
  error : Option String
  deriving Repr, DecidableEq

/-- GmailHelper.update_label (helper.py 1050-1092): authenticate if
needed, then issue the users().labels().update call and wrap the
outcome. -/
def update_label (authOk : Bool)
    (apiOutcome : Except String GmailLabel) : UpdateLabelResult :=
  if ¬ authOk then
    { label := none, error := some "Failed to authenticate with Gmail" }
  else
    match apiOutcome with
    | Except.ok lbl => { label := some lbl, error := none }
    | Except.error e =>
        { label := none, error := some ("Error updating label: " ++ e) }

end GmailHelper

namespace GmailServer

/-- The GmailMessageResponse model of gmail_mcp_server.py. -/
structure GmailMessageResponse where
  messages : List GmailHelper.ProcessedMessage
  error : Option String
  deriving Repr, DecidableEq

/-- The list_gmail_messages tool (gmail_mcp_server.py 49-84).  outcome
is the run of the tool body up to the helper call: ok carries the
helper result dict (the helper itself never raises), error an exception
raised while handling the request, caught by the except clause. -/
def list_gmail_messages
    (outcome : Except String GmailHelper.ListMessagesResult) :
    GmailMessageResponse :=
  match outcome with
  | Except.error e =>
      { messages := [],
        error := some ("Error in list_gmail_messages: " ++ e) }
  | Except.ok result =>
    match result.error with
    | some err => { messages := [], error := some err }
    | none => { messages := result.messages, error := none }

/-- One processed change entry built by the get_gmail_history tool. -/
inductive ProcessedChange where
  | messageAdded (message_id : Option String) (thread_id : Option String)
      (label_ids : List String)
  | messageDeleted (message_id : Option String) (thread_id : Option String)
  | labelAdded (message_id : Option String) (thread_id : Option String)
      (label_ids : List String)
  | labelRemoved (message_id : Option String) (thread_id : Option String)
      (label_ids : List String)
  deriving Repr, DecidableEq

/-- A processed history record of the get_gmail_history tool. -/
structure ProcessedRecord where
  rid : Option String
  changes : List ProcessedChange
  deriving Repr, DecidableEq

/-- The message dict defaulted to empty by msg.get("message", \x7b\x7d). -/
def emptyMessageRef : GmailHelper.MessageRefData :=
  { mid := none, threadId := none, labelIds := [] }

/-- The record-processing loop body of get_gmail_history
(gmail_mcp_server.py 648-697): each of the four change lists, when
present, contributes its entries in order. -/
def processHistoryRecord (record : GmailHelper.HistoryRecord) :
    ProcessedRecord :=
  let added := (record.messagesAdded.getD []).map (fun item =>
    let m := item.message.getD emptyMessageRef
    ProcessedChange.messageAdded m.mid m.threadId m.labelIds)
  let deleted := (record.messagesDeleted.getD []).map (fun item =>
    let m := item.message.getD emptyMessageRef
    ProcessedChange.messageDeleted m.mid m.threadId)
  let ladded := (record.labelsAdded.getD []).map (fun item =>
    let m := item.message.getD emptyMessageRef
    ProcessedChange.labelAdded m.mid m.threadId item.labelIds)
  let lremoved := (record.labelsRemoved.getD []).map (fun item =>
    let m := item.message.getD emptyMessageRef
    ProcessedChange.labelRemoved m.mid m.threadId item.labelIds)
  { rid := some record.hid, changes := added ++ deleted ++ ladded ++ lremoved }

/-- The HistoryResponse model of gmail_mcp_server.py. -/
structure HistoryResponse where
  history_records : List ProcessedRecord
  latest_history_id : Option String
  error : Option String
  deriving Repr, DecidableEq

/-- The default history-id file path of save_history_id. -/
def defaultHistoryPath : String := "gmail_mcp_tool/last_history_id.txt"

/-- The get_gmail_history tool (gmail_mcp_server.py 608-717): on a
helper error the error response is returned and nothing is written; on
success the records are processed and, when the latest_history_id is
truthy, it is persisted via save_history_id.  Returns the response
together with the filesystem after the call. -/
def get_gmail_history (result : GmailHelper.HistoryResult)
    (fs : FileSystem) : HistoryResponse × FileSystem :=
  match result.error with
  | some e =>
      ({ history_records := [], latest_history_id := none,
         error := some e }, fs)
  | none =>
    let processed := result.history.map processHistoryRecord
    let fs2 :=
      if optStrTruthy result.latest_history_id then
        (GmailHelper.save_history_id fs
          (result.latest_history_id.getD "") defaultHistoryPath).1
      else fs
    ({ history_records := processed,
       latest_history_id := result.latest_history_id,
       error := none }, fs2)

/-- The UpdateLabelRequest model of gmail_mcp_server.py (1150-1157). -/
structure UpdateLabelRequest where
  label_id : String
  uname : Option String
  text_color : Option String
  background_color : Option String
  message_list_visibility : Option String
  label_list_visibility : Option String
  deriving Repr, DecidableEq

/-- The updated_label body assembled by update_gmail_label: name and the
two visibilities (possibly None when absent on the existing label too),
and the optional color dict with its textColor and backgroundColor. -/
structure UpdatedLabelBody where
  bname : Option String
  messageListVisibility : Option String
  labelListVisibility : Option String
  color : Option (String × String)
  deriving Repr, DecidableEq

/-- The text_color local of update_gmail_label (gmail_mcp_server.py
1225-1227): the requested text color, filled from the color dict of the
existing label when unspecified and that dict is present. -/
def fillTextColor (request : UpdateLabelRequest)
    (target : GmailHelper.GmailLabel) : Option String :=
  match request.text_color with
  | some t => some t
  | none =>
    match target.color with
    | some c => c.textColor
    | none => none

/-- The background_color local of update_gmail_label (gmail_mcp_server.py
1229-1231), filled like the text color. -/
def fillBackgroundColor (request : UpdateLabelRequest)
    (target : GmailHelper.GmailLabel) : Option String :=
  match request.background_color with
  | some b => some b
  | none =>
    match target.color with
    | some c => c.backgroundColor
    | none => none

/-- The body-assembly block of update_gmail_label (gmail_mcp_server.py
1205-1237): unspecified fields are copied from the existing label; a
color dict is attached only when at least one color was requested and
both colors, after filling from the existing label, are truthy. -/
def buildUpdatedLabel (request : UpdateLabelRequest)
    (target : GmailHelper.GmailLabel) : UpdatedLabelBody :=
  let bname := match request.uname with
    | some n => some n
    | none => target.lname
  let mlv := match request.message_list_visibility with
    | some v => some v
    | none => target.messageListVisibility
  let llv := match request.label_list_visibility with
    | some v => some v
    | none => target.labelListVisibility
  let color :=
    if request.text_color.isSome ∨ request.background_color.isSome then
      match fillTextColor request target,
        fillBackgroundColor request target with
      | some t, some b => if t ≠ "" ∧ b ≠ "" then some (t, b) else none
      | _, _ => none
    else none
  { bname := bname, messageListVisibility := mlv,
    labelListVisibility := llv, color := color }

/-- The LabelResponse model of gmail_mcp_server.py. -/
structure LabelResponse where
  label : Option GmailHelper.GmailLabel
  error : Option String
  deriving Repr, DecidableEq

/-- The update_gmail_label tool (gmail_mcp_server.py 1159-1262): list
the existing labels, find the target by id, assemble the updated body
and call the helper update.  The second component is the body sent to
update_label, none when update_label was never called. -/
def update_gmail_label (request : UpdateLabelRequest) (authOk : Bool)
    (listApiOutcome : Except String (List GmailHelper.GmailLabel))
    (updateApiOutcome : Except String GmailHelper.GmailLabel) :
    LabelResponse × Option UpdatedLabelBody :=
  let existing := GmailHelper.list_labels authOk listApiOutcome
  match existing.error with
  | some e =>
      ({ label := none,
         error := some ("Failed to retrieve existing label: " ++ e) }, none)
  | none =>
    match existing.labels.find? (fun l => l.lid = some request.label_id) with
    | none =>
        ({ label := none,
           error := some ("Label with ID " ++ request.label_id ++
             " not found") }, none)
    | some target =>
      let body := buildUpdatedLabel request target
      let result := GmailHelper.update_label authOk updateApiOutcome
      match result.error with
      | some e => ({ label := none, error := some e }, some body)
      | none => ({ label := result.label, error := none }, some body)

end GmailServer

/-- The observable state of a google.oauth2 Credentials object as read
by the authenticate methods: valid, expired and the presence of a
refresh token (truthiness of creds.refresh_token). -/
structure VendorCreds where
  valid : Bool
  expired : Bool
  refreshToken : Bool
  deriving Repr, DecidableEq

/-- The outcomes of the vendor-library calls an authenticate run can
make: loading the token file, refreshing, running the OAuth flow,
saving the token and building the service client. -/
structure AuthEnv where
  tokenExists : Bool
  loadOutcome : Except String VendorCreds
  refreshOutcome : Except String VendorCreds
  flowOutcome : Except String VendorCreds
  saveOk : Bool
  buildOk : Bool
  deriving Repr

/-- Python truthiness of creds followed by creds.valid: the condition
`not creds or not creds.valid` of both authenticate methods. -/
def credsInvalid : Option VendorCreds → Bool
  | none => true
  | some c => ¬ c.valid

/-- The refresh guard `creds and creds.expired and creds.refresh_token`
of both authenticate methods. -/
def credsRefreshable : Option VendorCreds → Bool
  | none => false
  | some c => c.expired ∧ c.refreshToken

/-- GmailHelper.authenticate (gmail_mcp_tool/helper.py 42-118): load
the token file when present (a load error returns False); if the
credentials are missing or invalid, refresh them when expired with a
refresh token (a refresh error clears them), run the OAuth flow when
still invalid (a flow error returns False) and save the token (a save
error returns False); finally build the service (a build error is
caught by the outer handler and returns False). -/
def gmailAuthenticate (env : AuthEnv) : Bool :=
  match (if env.tokenExists then env.loadOutcome.map some
         else Except.ok none) with
  | Except.error _ => false
  | Except.ok creds0 =>
    if credsInvalid creds0 then
      let creds1 :=
        if credsRefreshable creds0 then
          match env.refreshOutcome with
          | Except.ok c => some c
          | Except.error _ => none
        else creds0
      if credsInvalid creds1 then
        match env.flowOutcome with
        | Except.error _ => false
        | Except.ok _ => if env.saveOk then env.buildOk else false
      else
        if env.saveOk then env.buildOk else false
    else env.buildOk

/-- GoogleCalendarHelper.authenticate (google_calender_mcp_tool/
calendar_helper.py 43-122): the same load / refresh / flow / save /
build sequence; the extra self.credentials assignment does not affect
the returned boolean. -/
def calendarAuthenticate (env : AuthEnv) : Bool :=
  match (if env.tokenExists then env.loadOutcome.map some
         else Except.ok none) with
  | Except.error _ => false
  | Except.ok creds0 =>
    if credsInvalid creds0 then
      let creds1 :=
        if credsRefreshable creds0 then
          match env.refreshOutcome with
          | Except.ok c => some c
          | Except.error _ => none
        else creds0
      if credsInvalid creds1 then
        match env.flowOutcome with
        | Except.error _ => false
        | Except.ok _ => if env.saveOk then env.buildOk else false
      else
        if env.saveOk then env.buildOk else false
    else env.buildOk

namespace JiraServer

/-- The environment variables read by extract_jira_issue. -/
structure JiraEnvVars where
  base_url : Option String
  instance_url : Option String
  email : Option String
  username : Option String
  api_token : Option String
  deriving Repr, DecidableEq

/-- The Python `or` on getenv results: the first operand is kept when
truthy (a non-empty string), otherwise the second is returned. -/
def pyOr (a b : Option String) : Option String :=
  if optStrTruthy a then a else b

/-- An inner node of an Atlassian Document Format paragraph, read via
.get: the optional type tag and the optional text defaulting to "". -/
structure ADFTextNode where
  ntype : Option String
  ntext : Option String
  deriving Repr, DecidableEq

/-- A top-level content element of an ADF description: the optional
type tag and the optional content list (the `"content" in content`
membership test of the code). -/
structure ADFTop where
  ctype : Option String
  ccontent : Option (List ADFTextNode)
  deriving Repr, DecidableEq

/-- The description field of a Jira issue: missing (the .get default
yields ""), a plain string, or an ADF dict with its top-level content
list. -/
inductive JiraDesc where
  | absent
  | text (s : String)
  | adf (content : List ADFTop)
  deriving Repr, DecidableEq

/-- The fields object of a Jira issue response. -/
structure JiraFields where
  summary : Option String
  description : JiraDesc
  deriving Repr, DecidableEq

/-- An HTTP response of the Jira issue GET: status code, parsed fields
(fields.get with an empty-dict default) and the raw text used in the
non-200 error message. -/
structure JiraHttpResponse where
  status_code : Nat
  fields : Option JiraFields
  text : String
  deriving Repr, DecidableEq

/-- The JiraIssueResponse model of jira_mcp_server.py. -/
structure JiraIssueResponse where
  summary : String
  description : String
  error : Option String
  deriving Repr, DecidableEq

/-- The inner text loop of the ADF extraction (jira_mcp_server.py
105-107): nodes of type text contribute text.get("text", ""). -/
def adfTextConcat (nodes : List ADFTextNode) : String :=
  nodes.foldl
    (fun acc t =>
      if t.ntype = some "text" then acc ++ t.ntext.getD "" else acc) ""

/-- The ADF extraction loop of extract_jira_issue (jira_mcp_server.py
101-109): each top-level element of type paragraph that carries a
content list contributes its text nodes followed by a newline; every
other element is dropped. -/
def adfExtract (content : List ADFTop) : String :=
  content.foldl
    (fun acc c =>
      match c.ccontent with
      | some inner =>
        if c.ctype = some "paragraph" then
          acc ++ adfTextConcat inner ++ "\n"
        else acc
      | none => acc) ""

/-- The missing-variables message of the credential check
(jira_mcp_server.py 55-64). -/
def missingVarsMsg (burl bemail btoken : Bool) : String :=
  let vars :=
    (if ¬ burl then ["JIRA_BASE_URL/JIRA_INSTANCE_URL"] else []) ++
    (if ¬ bemail then ["JIRA_EMAIL/JIRA_USERNAME"] else []) ++
    (if ¬ btoken then ["JIRA_API_TOKEN"] else [])
  "Jira credentials not found in environment variables: " ++
    String.intercalate ", " vars

/-- The extract_jira_issue tool (jira_mcp_server.py 35-126): resolve
the credentials, bail out with an error when any is missing, build the
issue URL, issue the GET (httpOutcome models the requests.get call; an
exception is caught by the outer handler), reject non-200 statuses and
reshape the fields, flattening an ADF description to plain text.
Returns the response together with the list of URLs requested. -/
def extract_jira_issue (env : JiraEnvVars) (issue_key : String)
    (httpOutcome : Except String JiraHttpResponse) :
    JiraIssueResponse × List String :=
  let jira_base_url := pyOr env.base_url env.instance_url
  let jira_email := pyOr env.email env.username
  let jira_api_token := env.api_token
  if ¬ optStrTruthy jira_base_url ∨ ¬ optStrTruthy jira_email ∨
      ¬ optStrTruthy jira_api_token then
    ({ summary := "", description := "",
       error := some (missingVarsMsg (optStrTruthy jira_base_url)
         (optStrTruthy jira_email) (optStrTruthy jira_api_token)) }, [])
  else
    let api_url := jira_base_url.getD "" ++ "/rest/api/3/issue/" ++ issue_key
    match httpOutcome with
    | Except.error e =>
        ({ summary := "", description := "",
           error := some ("Error extracting Jira issue: " ++ e) }, [api_url])
    | Except.ok resp =>
      if resp.status_code ≠ 200 then
        ({ summary := "", description := "",
           error := some ("Failed to fetch Jira issue: " ++
             toString resp.status_code ++ " - " ++ resp.text) }, [api_url])
      else
        let summary := (resp.fields.bind JiraFields.summary).getD ""
        let desc := (resp.fields.map JiraFields.description).getD
          JiraDesc.absent
        match desc with
        | JiraDesc.absent =>
            ({ summary := summary, description := "", error := none },
             [api_url])
        | JiraDesc.text s =>
            ({ summary := summary, description := s, error := none },
             [api_url])
        | JiraDesc.adf content =>
            ({ summary := summary, description := adfExtract content,
               error := none }, [api_url])

end JiraServer

namespace VideoServer

/-- The summarize_video_transcript tool (video_mcp_server.py 122-146):
its declared return type is a bare string, not a response model.  On a
successful SDK call it returns the completion content; when the call
raises it returns the error text itself as the string result. -/
def summarize_video_transcript (sdkOutcome : Except String String) :
    String :=
  match sdkOutcome with
  | Except.ok content => content
  | Except.error e => "Error summarizing transcript: " ++ e

end VideoServer

/-- The two endpoint callables wired into every create_starlette_app:
the SSE connection handler closed over the MCP server, and the POST
message handler of the SseServerTransport constructed at the path
/messages/. -/
inductive SseEndpoint where
  | handleSse
  | handlePostMessage
  deriving Repr, DecidableEq

/-- A Starlette routing-table entry: a Route or a Mount. -/
inductive RouteEntry where
  | route (path : String) (endpoint : SseEndpoint)
  | mount (path : String) (app : SseEndpoint)
  deriving Repr, DecidableEq

/-- The Starlette application as assembled by create_starlette_app. -/
structure StarletteApp where
  debug : Bool
  routes : List RouteEntry
  deriving Repr, DecidableEq

/-- create_starlette_app of gmail_mcp_server.py (1404-1426). -/
def gmail_create_starlette_app (debug : Bool) : StarletteApp :=
  { debug := debug,
    routes := [RouteEntry.route "/sse" SseEndpoint.handleSse,
               RouteEntry.mount "/messages/" SseEndpoint.handlePostMessage] }

/-- create_starlette_app of jira_mcp_server.py (128-150). -/
def jira_create_starlette_app (debug : Bool) : StarletteApp :=
  { debug := debug,
    routes := [RouteEntry.route "/sse" SseEndpoint.handleSse,
               RouteEntry.mount "/messages/" SseEndpoint.handlePostMessage] }

/-- create_starlette_app of google_calendar_mcp_tool.py (703-725). -/
def calendar_create_starlette_app (debug : Bool) : StarletteApp :=
  { debug := debug,
    routes := [RouteEntry.route "/sse" SseEndpoint.handleSse,
               RouteEntry.mount "/messages/" SseEndpoint.handlePostMessage] }

/-- create_starlette_app of google_drive_mcp_tool.py (1104-1126). -/
def drive_create_starlette_app (debug : Bool) : StarletteApp :=
  { debug := debug,
    routes := [RouteEntry.route "/sse" SseEndpoint.handleSse,
               RouteEntry.mount "/messages/" SseEndpoint.handlePostMessage] }

/-- create_starlette_app of video_mcp_server.py (197-219). -/
def video_create_starlette_app (debug : Bool) : StarletteApp :=
  { debug := debug,
    routes := [RouteEntry.route "/sse" SseEndpoint.handleSse,
               RouteEntry.mount "/messages/" SseEndpoint.handlePostMessage] }

/-- Specification-side count of history().list requests for the amended
claim C1: one request for the first page and, while a response carries a
nextPageToken, one further request for the next page. -/
def specPagesConsumed : List GmailHelper.HistoryPage → Nat
  | [] => 0
  | p :: rest =>
    1 + (if p.nextPageToken.isSome then specPagesConsumed rest else 0)

/-- Specification-side record list for the amended claim C1: the
concatenation, in order, of the records of the retrieved pages, each
page unchanged, pagination stopping at the first page without a
nextPageToken. -/
def specPagesRecords :
    List GmailHelper.HistoryPage → List GmailHelper.HistoryRecord
  | [] => []
  | p :: rest =>
    p.history ++ (if p.nextPageToken.isSome then specPagesRecords rest else [])

/-- Specification-side description for claim C6 as stated: the
concatenation, over each top-level content element of type paragraph,
of that paragraph text-node contents followed by a newline, with all
non-paragraph and non-text content dropped.  An element without a
content list contributes an empty text followed by the newline. -/
def adfDescriptionClaimed (content : List JiraServer.ADFTop) : String :=
  content.foldl
    (fun acc c =>
      if c.ctype = some "paragraph" then
        acc ++ JiraServer.adfTextConcat (c.ccontent.getD []) ++ "\n"
      else acc) ""

/-- Specification-side description for the amended claim C6: only the
top-level elements of type paragraph that carry a content list
contribute their text-node contents followed by a newline. -/
def adfDescriptionAmended (content : List JiraServer.ADFTop) : String :=
  content.foldl
    (fun acc c =>
      if c.ctype = some "paragraph" ∧ c.ccontent.isSome then
        acc ++ JiraServer.adfTextConcat (c.ccontent.getD []) ++ "\n"
      else acc) ""

/-- The try/except skeleton shared by every MCP tool body: outcome is
the run of the try body up to its return statement; when the body
raises, the except clause builds the error response from the exception
text.  Each tool below supplies its own handler, embedded verbatim from
the except clause of that tool. -/
def toolRun {ρ : Type} (handler : String → ρ) : Except String ρ → ρ
  | Except.ok r => r
  | Except.error e => handler e

namespace GmailServer

/-- The GmailProfileResponse model (gmail_mcp_server.py 93-95); the
payload dict is opaque. -/
structure GmailProfileResponse (α : Type) where
  profile : Option α
  error : Option String

/-- The get_gmail_profile tool (gmail_mcp_server.py 97-134) with its
except clause at 131-134. -/
def get_gmail_profile {α : Type} :
    Except String (GmailProfileResponse α) → GmailProfileResponse α :=
  toolRun (fun e =>
    { profile := none,
      error := some ("Error in get_gmail_profile: " ++ e) })

/-- The GmailWatchResponse model (gmail_mcp_server.py 145-147). -/
structure GmailWatchResponse (α : Type) where
  watch_data : Option α
  error : Option String

/-- The setup_gmail_watch tool (gmail_mcp_server.py 149-194) with its
except clause at 191-194. -/
def setup_gmail_watch {α : Type} :
    Except String (GmailWatchResponse α) → GmailWatchResponse α :=
  toolRun (fun e =>
    { watch_data := none,
      error := some ("Error in setup_gmail_watch: " ++ e) })

/-- The DraftResponse model (gmail_mcp_server.py 207-209), shared by
the create, get and update draft tools. -/
structure DraftResponse (α : Type) where
  draft : Option α
  error : Option String

/-- The create_gmail_draft tool (gmail_mcp_server.py 211-272) with its
except clause at 269-272. -/
def create_gmail_draft {α : Type} :
    Except String (DraftResponse α) → DraftResponse α :=
  toolRun (fun e =>
    { draft := none,
      error := some ("Error in create_gmail_draft: " ++ e) })

/-- The DeleteDraftResponse model (gmail_mcp_server.py 279-281). -/
structure DeleteDraftResponse where
  success : Bool
  error : Option String

/-- The delete_gmail_draft tool (gmail_mcp_server.py 283-323) with its
except clause at 320-323. -/
def delete_gmail_draft :
    Except String DeleteDraftResponse → DeleteDraftResponse :=
  toolRun (fun e =>
    { success := false,
      error := some ("Error in delete_gmail_draft: " ++ e) })

/-- The get_gmail_draft tool (gmail_mcp_server.py 331-373) with its
except clause at 370-373. -/
def get_gmail_draft {α : Type} :
    Except String (DraftResponse α) → DraftResponse α :=
  toolRun (fun e =>
    { draft := none,
      error := some ("Error in get_gmail_draft: " ++ e) })

/-- The ListDraftsResponse model (gmail_mcp_server.py 380-382). -/
structure ListDraftsResponse (α : Type) where
  drafts : List α
  error : Option String

/-- The list_gmail_drafts tool (gmail_mcp_server.py 384-425) with its
except clause at 422-425. -/
def list_gmail_drafts {α : Type} :
    Except String (ListDraftsResponse α) → ListDraftsResponse α :=
  toolRun (fun e =>
    { drafts := [],
      error := some ("Error in list_gmail_drafts: " ++ e) })

/-- The SendDraftResponse model (gmail_mcp_server.py 432-434). -/
structure SendDraftResponse (α : Type) where
  message : Option α
  error : Option String

/-- The send_gmail_draft tool (gmail_mcp_server.py 436-477) with its
except clause at 474-477. -/
def send_gmail_draft {α : Type} :
    Except String (SendDraftResponse α) → SendDraftResponse α :=
  toolRun (fun e =>
    { message := none,
      error := some ("Error in send_gmail_draft: " ++ e) })

/-- The update_gmail_draft tool (gmail_mcp_server.py 487-549) with its
except clause at 546-549. -/
def update_gmail_draft {α : Type} :
    Except String (DraftResponse α) → DraftResponse α :=
  toolRun (fun e =>
    { draft := none,
      error := some ("Error in update_gmail_draft: " ++ e) })

/-- The LoadHistoryIdResponse model (gmail_mcp_server.py 566-568). -/
structure LoadHistoryIdResponse where
  history_id : Option String
  error : Option String

/-- The load_saved_history_id tool (gmail_mcp_server.py 570-606) with
its except clause at 600-606. -/
def load_saved_history_id :
    Except String LoadHistoryIdResponse → LoadHistoryIdResponse :=
  toolRun (fun e =>
    { history_id := none,
      error := some ("Error loading saved history ID: " ++ e) })

/-- The get_gmail_history tool with its own except clause
(gmail_mcp_server.py 710-717) made explicit: outcome is the run of the
try body up to the helper call; an exception raised while handling the
request is caught and wrapped, leaving the filesystem untouched (the
pure model raises only before the save). -/
def get_gmail_history_run
    (outcome : Except String GmailHelper.HistoryResult)
    (fs : FileSystem) : HistoryResponse × FileSystem :=
  match outcome with
  | Except.ok r => get_gmail_history r fs
  | Except.error e =>
      ({ history_records := [], latest_history_id := none,
         error := some ("Error in get_gmail_history: " ++ e) }, fs)

/-- The AuthenticationResponse model (gmail_mcp_server.py 726-730). -/
structure AuthenticationResponse where
  authenticated : Bool
  message : String
  email : Option String
  error : Option String

/-- The authenticate_gmail tool (gmail_mcp_server.py 732-773) with its
except clause at 766-773, which sets the fixed failure message. -/
def authenticate_gmail :
    Except String AuthenticationResponse → AuthenticationResponse :=
  toolRun (fun e =>
    { authenticated := false,
      message := "Unexpected error during authentication",
      email := none,
      error := some ("Error in authenticate_gmail: " ++ e) })

/-- The MessageResponse model (gmail_mcp_server.py 786-788), shared by
the send and modify message tools. -/
structure MessageResponse (α : Type) where
  message : Option α
  error : Option String

/-- The send_gmail_message tool (gmail_mcp_server.py 790-863) with its
except clause at 860-863. -/
def send_gmail_message {α : Type} :
    Except String (MessageResponse α) → MessageResponse α :=
  toolRun (fun e =>
    { message := none,
      error := some ("Error in send_gmail_message: " ++ e) })

/-- The modify_gmail_message tool (gmail_mcp_server.py 871-922) with
its except clause at 919-922. -/
def modify_gmail_message {α : Type} :
    Except String (MessageResponse α) → MessageResponse α :=
  toolRun (fun e =>
    { message := none,
      error := some ("Error in modify_gmail_message: " ++ e) })

/-- The ThreadListResponse model (gmail_mcp_server.py 933-935). -/
structure ThreadListResponse (α : Type) where
  threads : List α
  error : Option String

/-- The list_gmail_threads tool (gmail_mcp_server.py 937-980) with its
except clause at 977-980. -/
def list_gmail_threads {α : Type} :
    Except String (ThreadListResponse α) → ThreadListResponse α :=
  toolRun (fun e =>
    { threads := [],
      error := some ("Error in list_gmail_threads: " ++ e) })

/-- The ThreadResponse model (gmail_mcp_server.py 987-989). -/
structure ThreadResponse (α : Type) where
  thread : Option α
  error : Option String

/-- The get_gmail_thread tool (gmail_mcp_server.py 991-1039) with its
except clause at 1036-1039. -/
def get_gmail_thread {α : Type} :
    Except String (ThreadResponse α) → ThreadResponse α :=
  toolRun (fun e =>
    { thread := none,
      error := some ("Error in get_gmail_thread: " ++ e) })

/-- The LabelsResponse model (gmail_mcp_server.py 1048-1050). -/
structure LabelsResponse (α : Type) where
  labels : List α
  error : Option String

/-- The list_gmail_labels tool (gmail_mcp_server.py 1052-1090) with its
except clause at 1087-1090. -/
def list_gmail_labels {α : Type} :
    Except String (LabelsResponse α) → LabelsResponse α :=
  toolRun (fun e =>
    { labels := [],
      error := some ("Error in list_gmail_labels: " ++ e) })

/-- The create_gmail_label tool (gmail_mcp_server.py 1102-1148) with
its except clause at 1145-1148; it uses the same LabelResponse model as
update_gmail_label. -/
def create_gmail_label :
    Except String LabelResponse → LabelResponse :=
  toolRun (fun e =>
    { label := none,
      error := some ("Error in create_gmail_label: " ++ e) })

/-- The update_gmail_label tool with its own except clause
(gmail_mcp_server.py 1259-1262) made explicit: outcome is the run of
the try body (the deep embedding update_gmail_label above); an
exception is caught and wrapped, with no update body sent. -/
def update_gmail_label_run :
    Except String (LabelResponse × Option UpdatedLabelBody) →
      LabelResponse × Option UpdatedLabelBody :=
  toolRun (fun e =>
    ({ label := none,
       error := some ("Error in update_gmail_label: " ++ e) }, none))

/-- The FiltersResponse model (gmail_mcp_server.py 1271-1273). -/
structure FiltersResponse (α : Type) where
  filters : List α
  error : Option String

/-- The list_gmail_filters tool (gmail_mcp_server.py 1275-1313) with
its except clause at 1310-1313. -/
def list_gmail_filters {α : Type} :
    Except String (FiltersResponse α) → FiltersResponse α :=
  toolRun (fun e =>
    { filters := [],
      error := some ("Error in list_gmail_filters: " ++ e) })

/-- The FilterResponse model (gmail_mcp_server.py 1335-1337). -/
structure FilterResponse (α : Type) where
  filter : Option α
  error : Option String

/-- The create_gmail_filter tool (gmail_mcp_server.py 1339-1402) with
its except clause at 1399-1402. -/
def create_gmail_filter {α : Type} :
    Except String (FilterResponse α) → FilterResponse α :=
  toolRun (fun e =>
    { filter := none,
      error := some ("Error in create_gmail_filter: " ++ e) })

end GmailServer

namespace CalendarServer

/-- The CalendarsResponse model (google_calendar_mcp_tool.py 87-89). -/
structure CalendarsResponse (α : Type) where
  calendars : List α
  error : Option String

/-- The list_calendars tool (google_calendar_mcp_tool.py 91-121) with
its except clause at 118-121. -/
def list_calendars {α : Type} :
    Except String (CalendarsResponse α) → CalendarsResponse α :=
  toolRun (fun e =>
    { calendars := [],
      error := some ("Error in list_calendars: " ++ e) })

/-- The CalendarResponse model (google_calendar_mcp_tool.py 130-132),
shared by the get and create calendar tools. -/
structure CalendarResponse (α : Type) where
  calendar : Option α
  error : Option String

/-- The get_calendar tool (google_calendar_mcp_tool.py 134-169) with
its except clause at 166-169. -/
def get_calendar {α : Type} :
    Except String (CalendarResponse α) → CalendarResponse α :=
  toolRun (fun e =>
    { calendar := none,
      error := some ("Error in get_calendar: " ++ e) })

/-- The create_calendar tool (google_calendar_mcp_tool.py 180-217)
with its except clause at 214-217. -/
def create_calendar {α : Type} :
    Except String (CalendarResponse α) → CalendarResponse α :=
  toolRun (fun e =>
    { calendar := none,
      error := some ("Error in create_calendar: " ++ e) })

/-- The DeleteCalendarResponse model (google_calendar_mcp_tool.py
226-228). -/
structure DeleteCalendarResponse where
  success : Bool
  error : Option String

/-- The delete_calendar tool (google_calendar_mcp_tool.py 230-265)
with its except clause at 262-265. -/
def delete_calendar :
    Except String DeleteCalendarResponse → DeleteCalendarResponse :=
  toolRun (fun e =>
    { success := false,
      error := some ("Error in delete_calendar: " ++ e) })

/-- The EventsResponse model (google_calendar_mcp_tool.py 278-280). -/
structure EventsResponse (α : Type) where
  events : List α
  error : Option String

/-- The list_events tool (google_calendar_mcp_tool.py 282-321) with
its except clause at 318-321. -/
def list_events {α : Type} :
    Except String (EventsResponse α) → EventsResponse α :=
  toolRun (fun e =>
    { events := [],
      error := some ("Error in list_events: " ++ e) })

/-- The EventResponse model (google_calendar_mcp_tool.py 331-333),
shared by the get, create, update and quick-add event tools. -/
structure EventResponse (α : Type) where
  event : Option α
  error : Option String

/-- The get_event tool (google_calendar_mcp_tool.py 335-371) with its
except clause at 368-371. -/
def get_event {α : Type} :
    Except String (EventResponse α) → EventResponse α :=
  toolRun (fun e =>
    { event := none,
      error := some ("Error in get_event: " ++ e) })

/-- The create_event tool (google_calendar_mcp_tool.py 389-433) with
its except clause at 430-433. -/
def create_event {α : Type} :
    Except String (EventResponse α) → EventResponse α :=
  toolRun (fun e =>
    { event := none,
      error := some ("Error in create_event: " ++ e) })

/-- The update_event tool (google_calendar_mcp_tool.py 452-497) with
its except clause at 494-497. -/
def update_event {α : Type} :
    Except String (EventResponse α) → EventResponse α :=
  toolRun (fun e =>
    { event := none,
      error := some ("Error in update_event: " ++ e) })

/-- The DeleteEventResponse model (google_calendar_mcp_tool.py
507-509). -/
structure DeleteEventResponse where
  success : Bool
  error : Option String

/-- The delete_event tool (google_calendar_mcp_tool.py 511-547) with
its except clause at 544-547. -/
def delete_event :
    Except String DeleteEventResponse → DeleteEventResponse :=
  toolRun (fun e =>
    { success := false,
      error := some ("Error in delete_event: " ++ e) })

/-- The FreeBusyResponse model (google_calendar_mcp_tool.py 559-561);
the calendars payload is a dict, rendered as an association list. -/
structure FreeBusyResponse (α : Type) where
  calendars : List (String × α)
  error : Option String

/-- The find_free_busy tool (google_calendar_mcp_tool.py 563-601) with
its except clause at 598-601, returning an empty calendars dict. -/
def find_free_busy {α : Type} :
    Except String (FreeBusyResponse α) → FreeBusyResponse α :=
  toolRun (fun e =>
    { calendars := [],
      error := some ("Error in find_free_busy: " ++ e) })

/-- The quick_add_event tool (google_calendar_mcp_tool.py 611-647)
with its except clause at 644-647. -/
def quick_add_event {α : Type} :
    Except String (EventResponse α) → EventResponse α :=
  toolRun (fun e =>
    { event := none,
      error := some ("Error in quick_add_event: " ++ e) })

/-- The AuthenticationResponse model (google_calendar_mcp_tool.py
656-659). -/
structure AuthenticationResponse where
  authenticated : Bool
  message : String
  error : Option String

/-- The authenticate_calendar tool (google_calendar_mcp_tool.py
661-697) with its except clause at 690-697, which sets the fixed
failure message. -/
def authenticate_calendar :
    Except String AuthenticationResponse → AuthenticationResponse :=
  toolRun (fun e =>
    { authenticated := false,
      message := "Authentication failed due to an error",
      error := some ("Error in authenticate_calendar: " ++ e) })

end CalendarServer

namespace DriveServer

/-- The DriveFilesResponse model (google_drive_mcp_tool.py 94-96). -/
structure DriveFilesResponse (α : Type) where
  files : List α
  error : Option String

/-- The list_drive_files tool (google_drive_mcp_tool.py 98-134) with
its except clause at 131-134. -/
def list_drive_files {α : Type} :
    Except String (DriveFilesResponse α) → DriveFilesResponse α :=
  toolRun (fun e =>
    { files := [],
      error := some ("Error in list_drive_files: " ++ e) })

/-- The FileMetadataResponse model (google_drive_mcp_tool.py 143-145). -/
structure FileMetadataResponse (α : Type) where
  metadata : Option α
  error : Option String

/-- The get_file_metadata tool (google_drive_mcp_tool.py 147-182) with
its except clause at 179-182. -/
def get_file_metadata {α : Type} :
    Except String (FileMetadataResponse α) → FileMetadataResponse α :=
  toolRun (fun e =>
    { metadata := none,
      error := some ("Error in get_file_metadata: " ++ e) })

/-- The FolderResponse model (google_drive_mcp_tool.py 192-194). -/
structure FolderResponse (α : Type) where
  folder : Option α
  error : Option String

/-- The create_drive_folder tool (google_drive_mcp_tool.py 196-232)
with its except clause at 229-232. -/
def create_drive_folder {α : Type} :
    Except String (FolderResponse α) → FolderResponse α :=
  toolRun (fun e =>
    { folder := none,
      error := some ("Error in create_drive_folder: " ++ e) })

/-- The DocumentResponse model (google_drive_mcp_tool.py 243-245). -/
structure DocumentResponse (α : Type) where
  document : Option α
  error : Option String

/-- The create_drive_document tool (google_drive_mcp_tool.py 247-284)
with its except clause at 281-284. -/
def create_drive_document {α : Type} :
    Except String (DocumentResponse α) → DocumentResponse α :=
  toolRun (fun e =>
    { document := none,
      error := some ("Error in create_drive_document: " ++ e) })

/-- The SpreadsheetResponse model (google_drive_mcp_tool.py 290-292). -/
structure SpreadsheetResponse (α : Type) where
  spreadsheet : Option α
  error : Option String

/-- The create_drive_spreadsheet tool (google_drive_mcp_tool.py
294-330) with its except clause at 327-330. -/
def create_drive_spreadsheet {α : Type} :
    Except String (SpreadsheetResponse α) → SpreadsheetResponse α :=
  toolRun (fun e =>
    { spreadsheet := none,
      error := some ("Error in create_drive_spreadsheet: " ++ e) })

/-- The PresentationResponse model (google_drive_mcp_tool.py 336-338). -/
structure PresentationResponse (α : Type) where
  presentation : Option α
  error : Option String

/-- The create_drive_presentation tool (google_drive_mcp_tool.py
340-376) with its except clause at 373-376. -/
def create_drive_presentation {α : Type} :
    Except String (PresentationResponse α) → PresentationResponse α :=
  toolRun (fun e =>
    { presentation := none,
      error := some ("Error in create_drive_presentation: " ++ e) })

/-- The DownloadFileResponse model (google_drive_mcp_tool.py 386-390). -/
structure DownloadFileResponse where
  content : Option String
  mime_type : Option String
  file_name : Option String
  error : Option String

/-- The download_drive_file tool (google_drive_mcp_tool.py 392-441)
with its except clause at 433-441. -/
def download_drive_file :
    Except String DownloadFileResponse → DownloadFileResponse :=
  toolRun (fun e =>
    { content := none, mime_type := none, file_name := none,
      error := some ("Error in download_drive_file: " ++ e) })

/-- The DeleteFileResponse model (google_drive_mcp_tool.py 450-452). -/
structure DeleteFileResponse where
  success : Bool
  error : Option String

/-- The delete_drive_file tool (google_drive_mcp_tool.py 454-489) with
its except clause at 486-489. -/
def delete_drive_file :
    Except String DeleteFileResponse → DeleteFileResponse :=
  toolRun (fun e =>
    { success := false,
      error := some ("Error in delete_drive_file: " ++ e) })

/-- The ShareFileResponse model (google_drive_mcp_tool.py 502-504). -/
structure ShareFileResponse (α : Type) where
  permission : Option α
  error : Option String

/-- The share_drive_file tool (google_drive_mcp_tool.py 506-550) with
its except clause at 547-550. -/
def share_drive_file {α : Type} :
    Except String (ShareFileResponse α) → ShareFileResponse α :=
  toolRun (fun e =>
    { permission := none,
      error := some ("Error in share_drive_file: " ++ e) })

/-- The UploadFileResponse model (google_drive_mcp_tool.py 563-565). -/
structure UploadFileResponse (α : Type) where
  file : Option α
  error : Option String

/-- The upload_file_to_drive tool (google_drive_mcp_tool.py 567-617)
with its except clause at 614-617. -/
def upload_file_to_drive {α : Type} :
    Except String (UploadFileResponse α) → UploadFileResponse α :=
  toolRun (fun e =>
    { file := none,
      error := some ("Error in upload_file_to_drive: " ++ e) })

/-- The AuthenticationResponse model (google_drive_mcp_tool.py
626-629). -/
structure AuthenticationResponse where
  authenticated : Bool
  message : String
  error : Option String

/-- The authenticate_drive tool (google_drive_mcp_tool.py 631-671)
with its except clause at 664-671, which sets the fixed failure
message. -/
def authenticate_drive :
    Except String AuthenticationResponse → AuthenticationResponse :=
  toolRun (fun e =>
    { authenticated := false,
      message := "Unexpected error during authentication",
      error := some ("Error in authenticate_drive: " ++ e) })

/-- The DocumentContentResponse model (google_drive_mcp_tool.py
680-682). -/
structure DocumentContentResponse (α : Type) where
  content : Option α
  error : Option String

/-- The get_document_content_tool tool (google_drive_mcp_tool.py
684-720) with its except clause at 717-720. -/
def get_document_content_tool {α : Type} :
    Except String (DocumentContentResponse α) →
      DocumentContentResponse α :=
  toolRun (fun e =>
    { content := none,
      error := some ("Error in get_document_content_tool: " ++ e) })

/-- The UpdateDocumentResponse model (google_drive_mcp_tool.py
726-728). -/
structure UpdateDocumentResponse (α : Type) where
  result : Option α
  error : Option String

/-- The update_document_content_tool tool (google_drive_mcp_tool.py
730-775) with its except clause at 772-775. -/
def update_document_content_tool {α : Type} :
    Except String (UpdateDocumentResponse α) →
      UpdateDocumentResponse α :=
  toolRun (fun e =>
    { result := none,
      error := some ("Error in update_document_content_tool: " ++ e) })

/-- The SpreadsheetContentResponse model (google_drive_mcp_tool.py
784-786). -/
structure SpreadsheetContentResponse (α : Type) where
  content : Option α
  error : Option String

/-- The get_spreadsheet_content_tool tool (google_drive_mcp_tool.py
788-824) with its except clause at 821-824. -/
def get_spreadsheet_content_tool {α : Type} :
    Except String (SpreadsheetContentResponse α) →
      SpreadsheetContentResponse α :=
  toolRun (fun e =>
    { content := none,
      error := some ("Error in get_spreadsheet_content_tool: " ++ e) })

/-- The UpdateSpreadsheetResponse model (google_drive_mcp_tool.py
830-832). -/
structure UpdateSpreadsheetResponse (α : Type) where
  result : Option α
  error : Option String

/-- The update_spreadsheet_content_tool tool (google_drive_mcp_tool.py
834-879) with its except clause at 876-879. -/
def update_spreadsheet_content_tool {α : Type} :
    Except String (UpdateSpreadsheetResponse α) →
      UpdateSpreadsheetResponse α :=
  toolRun (fun e =>
    { result := none,
      error :=
        some ("Error in update_spreadsheet_content_tool: " ++ e) })

/-- The UpdateSpreadsheetValuesResponse model (google_drive_mcp_tool.py
887-889). -/
structure UpdateSpreadsheetValuesResponse (α : Type) where
  result : Option α
  error : Option String

/-- The update_spreadsheet_values_tool tool (google_drive_mcp_tool.py
891-936) with its except clause at 933-936. -/
def update_spreadsheet_values_tool {α : Type} :
    Except String (UpdateSpreadsheetValuesResponse α) →
      UpdateSpreadsheetValuesResponse α :=
  toolRun (fun e =>
    { result := none,
      error :=
        some ("Error in update_spreadsheet_values_tool: " ++ e) })

/-- The PresentationContentResponse model (google_drive_mcp_tool.py
945-947). -/
structure PresentationContentResponse (α : Type) where
  content : Option α
  error : Option String

/-- The get_presentation_content_tool tool (google_drive_mcp_tool.py
949-985) with its except clause at 982-985. -/
def get_presentation_content_tool {α : Type} :
    Except String (PresentationContentResponse α) →
      PresentationContentResponse α :=
  toolRun (fun e =>
    { content := none,
      error :=
        some ("Error in get_presentation_content_tool: " ++ e) })

/-- The UpdatePresentationResponse model (google_drive_mcp_tool.py
991-993). -/
structure UpdatePresentationResponse (α : Type) where
  result : Option α
  error : Option String

/-- The update_presentation_content_tool tool (google_drive_mcp_tool.py
995-1040) with its except clause at 1037-1040. -/
def update_presentation_content_tool {α : Type} :
    Except String (UpdatePresentationResponse α) →
      UpdatePresentationResponse α :=
  toolRun (fun e =>
    { result := none,
      error :=
        some ("Error in update_presentation_content_tool: " ++ e) })

/-- The MoveFileResponse model (google_drive_mcp_tool.py 1051-1053). -/
structure MoveFileResponse (α : Type) where
  file : Option α
  error : Option String

/-- The move_drive_file tool (google_drive_mcp_tool.py 1055-1098) with
its except clause at 1095-1098. -/
def move_drive_file {α : Type} :
    Except String (MoveFileResponse α) → MoveFileResponse α :=
  toolRun (fun e =>
    { file := none,
      error := some ("Error in move_drive_file: " ++ e) })

end DriveServer

namespace VideoServer

/-- The VideoTranscriptionResponse model (video_mcp_server.py 37-39). -/
structure VideoTranscriptionResponse where
  transcript : String
  error : Option String

/-- The transcribe_video tool (video_mcp_server.py 50-120) with its
except clause at 110-114. -/
def transcribe_video :
    Except String VideoTranscriptionResponse →
      VideoTranscriptionResponse :=
  toolRun (fun e =>
    { transcript := "",
      error := some ("Error transcribing video: " ++ e) })

/-- The VideoSummarizationResponse model (video_mcp_server.py 46-48). -/
structure VideoSummarizationResponse where
  summary : String
  error : Option String

/-- The summarize_video tool (video_mcp_server.py 148-195) with its
except clause at 187-195. -/
def summarize_video :
    Except String VideoSummarizationResponse →
      VideoSummarizationResponse :=
  toolRun (fun e =>
    { summary := "",
      error := some ("Error summarizing video: " ++ e) })

end VideoServer

/-- C3: for a history id with no surrounding whitespace, a successful
save_history_id leaves the file holding exactly that single id, and a
subsequent load_history_id returns the saved value with no error. -/
theorem C3_save_load_roundtrip (fs : FileSystem) (h p : String)
    (hws : pyStrip h = h)
    (hsucc : (GmailHelper.save_history_id fs h p).2.success = true ∧
             (GmailHelper.save_history_id fs h p).2.error = none) :
    (GmailHelper.save_history_id fs h p).1 p = some h ∧
    GmailHelper.load_history_id ((GmailHelper.save_history_id fs h p).1) p =
      { history_id := some h, error := none } := by
  refine ⟨?_, ?_⟩ <;>
    simp [GmailHelper.save_history_id, GmailHelper.load_history_id,
      fsWrite, hws]

/-- Witness for C3 at a concrete filesystem, id and path. -/
theorem C3_save_load_roundtrip_witness :
    pyStrip "12345" = "12345" ∧
    ((GmailHelper.save_history_id (fun _ => none) "12345"
        "gmail_mcp_tool/last_history_id.txt").1
        "gmail_mcp_tool/last_history_id.txt" = some "12345" ∧
      GmailHelper.load_history_id
        ((GmailHelper.save_history_id (fun _ => none) "12345"
          "gmail_mcp_tool/last_history_id.txt").1)
        "gmail_mcp_tool/last_history_id.txt" =
        { history_id := some "12345", error := none }) :=
  ⟨by decide,
   C3_save_load_roundtrip (fun _ => none) "12345"
     "gmail_mcp_tool/last_history_id.txt" (by decide) ⟨rfl, rfl⟩⟩

/-- C5: GmailHelper.authenticate and GoogleCalendarHelper.authenticate
run the same load / refresh / flow / save / build algorithm, so on
every sequence of vendor-call outcomes they return the same boolean. -/
theorem C5_authenticate_equivalent (env : AuthEnv) :
    gmailAuthenticate env = calendarAuthenticate env := rfl

/-- C7: in every tool server, create_starlette_app builds an
application whose route table is exactly a Route at /sse serving the
SSE connection handler and a Mount at /messages/ serving the transport
POST message handler, and the construction is identical across the
five servers. -/
theorem C7_starlette_routes (debug : Bool) :
    gmail_create_starlette_app debug =
      { debug := debug,
        routes := [RouteEntry.route "/sse" SseEndpoint.handleSse,
                   RouteEntry.mount "/messages/"
                     SseEndpoint.handlePostMessage] } ∧
    jira_create_starlette_app debug = gmail_create_starlette_app debug ∧
    calendar_create_starlette_app debug = gmail_create_starlette_app debug ∧
    drive_create_starlette_app debug = gmail_create_starlette_app debug ∧
    video_create_starlette_app debug = gmail_create_starlette_app debug :=
  ⟨rfl, rfl, rfl, rfl, rfl⟩

/-- C9: with a None or empty start_history_id, get_history issues no
history().list call, and when the profile fetch succeeds it returns an
empty history list, the profile historyId as latest_history_id and no
error. -/
theorem C9_baseline (start : Option String)
    (po : Except String GmailHelper.GmailProfile)
    (pages : List GmailHelper.HistoryPage)
    (hstart : start = none ∨ start = some "") :
    (GmailHelper.get_history true start po pages).listCalls = 0 ∧
    ∀ prof, po = Except.ok prof →
      GmailHelper.get_history true start po pages =
        { history := [], latest_history_id := prof.historyId,
          error := none, listCalls := 0 } := by
  have hfalsy : optStrTruthy start = false := by
    rcases hstart with h | h <;> subst h <;> rfl
  constructor
  · unfold GmailHelper.get_history
    simp only [hfalsy]
    cases po <;> simp
  · intro prof hpo
    subst hpo
    unfold GmailHelper.get_history
    simp [hfalsy]

/-- Witness for C9 at a concrete start value and profile. -/
theorem C9_baseline_witness :
    (GmailHelper.get_history true none
      (Except.ok { historyId := some "777" }) []).listCalls = 0 ∧
    GmailHelper.get_history true none
        (Except.ok { historyId := some "777" }) [] =
      { history := [], latest_history_id := some "777",
        error := none, listCalls := 0 } := by
  have h := C9_baseline none (Except.ok { historyId := some "777" }) []
    (Or.inl rfl)
  exact ⟨h.1, h.2 { historyId := some "777" } rfl⟩

/-- C2 counterexample: summarize_video_transcript is declared with a
bare string return type, not a response model; when its SDK call raises
it returns the error text itself as the result, indistinguishable from
a successful summary with the same text, so it does not return a
response object with a non-None error field. -/
theorem C2_counterexample :
    VideoServer.summarize_video_transcript (Except.error "boom") =
      "Error summarizing transcript: boom" ∧
    VideoServer.summarize_video_transcript
        (Except.ok "Error summarizing transcript: boom") =
      VideoServer.summarize_video_transcript (Except.error "boom") :=
  ⟨rfl, rfl⟩

/-- C2 amended: every MCP tool function that declares a response model
— all 55 of the 56 tools across the five servers — turns an exception
raised while handling the request into a response whose error field is
a non-None string and whose payload fields are empty, None or False;
the three authenticate tools additionally set their required message
field to a fixed failure text.  The conjunction enumerates the 21
gmail, 1 jira, 12 calendar, 19 drive and 2 response-model video
tools. -/
theorem C2_amended (α : Type) (e : String) (fs : FileSystem)
    (env : JiraServer.JiraEnvVars) (key : String) :
    (GmailServer.list_gmail_messages (Except.error e) =
      { messages := [],
        error := some ("Error in list_gmail_messages: " ++ e) } ∧
     (GmailServer.get_gmail_profile (Except.error e) :
        GmailServer.GmailProfileResponse α) =
      { profile := none,
        error := some ("Error in get_gmail_profile: " ++ e) } ∧
     (GmailServer.setup_gmail_watch (Except.error e) :
        GmailServer.GmailWatchResponse α) =
      { watch_data := none,
        error := some ("Error in setup_gmail_watch: " ++ e) } ∧
     (GmailServer.create_gmail_draft (Except.error e) :
        GmailServer.DraftResponse α) =
      { draft := none,
        error := some ("Error in create_gmail_draft: " ++ e) } ∧
     GmailServer.delete_gmail_draft (Except.error e) =
      { success := false,
        error := some ("Error in delete_gmail_draft: " ++ e) } ∧
     (GmailServer.get_gmail_draft (Except.error e) :
        GmailServer.DraftResponse α) =
      { draft := none,
        error := some ("Error in get_gmail_draft: " ++ e) } ∧
     (GmailServer.list_gmail_drafts (Except.error e) :
        GmailServer.ListDraftsResponse α) =
      { drafts := [],
        error := some ("Error in list_gmail_drafts: " ++ e) } ∧
     (GmailServer.send_gmail_draft (Except.error e) :
        GmailServer.SendDraftResponse α) =
      { message := none,
        error := some ("Error in send_gmail_draft: " ++ e) } ∧
     (GmailServer.update_gmail_draft (Except.error e) :
        GmailServer.DraftResponse α) =
      { draft := none,
        error := some ("Error in update_gmail_draft: " ++ e) } ∧
     GmailServer.load_saved_history_id (Except.error e) =
      { history_id := none,
        error := some ("Error loading saved history ID: " ++ e) } ∧
     GmailServer.get_gmail_history_run (Except.error e) fs =
      ({ history_records := [], latest_history_id := none,
         error := some ("Error in get_gmail_history: " ++ e) }, fs) ∧
     GmailServer.authenticate_gmail (Except.error e) =
      { authenticated := false,
        message := "Unexpected error during authentication",
        email := none,
        error := some ("Error in authenticate_gmail: " ++ e) } ∧
     (GmailServer.send_gmail_message (Except.error e) :
        GmailServer.MessageResponse α) =
      { message := none,
        error := some ("Error in send_gmail_message: " ++ e) } ∧
     (GmailServer.modify_gmail_message (Except.error e) :
        GmailServer.MessageResponse α) =
      { message := none,
        error := some ("Error in modify_gmail_message: " ++ e) } ∧
     (GmailServer.list_gmail_threads (Except.error e) :
        GmailServer.ThreadListResponse α) =
      { threads := [],
        error := some ("Error in list_gmail_threads: " ++ e) } ∧
     (GmailServer.get_gmail_thread (Except.error e) :
        GmailServer.ThreadResponse α) =
      { thread := none,
        error := some ("Error in get_gmail_thread: " ++ e) } ∧
     (GmailServer.list_gmail_labels (Except.error e) :
        GmailServer.LabelsResponse α) =
      { labels := [],
        error := some ("Error in list_gmail_labels: " ++ e) } ∧
     GmailServer.create_gmail_label (Except.error e) =
      { label := none,
        error := some ("Error in create_gmail_label: " ++ e) } ∧
     GmailServer.update_gmail_label_run (Except.error e) =
      ({ label := none,
         error := some ("Error in update_gmail_label: " ++ e) },
       none) ∧
     (GmailServer.list_gmail_filters (Except.error e) :
        GmailServer.FiltersResponse α) =
      { filters := [],
        error := some ("Error in list_gmail_filters: " ++ e) } ∧
     (GmailServer.create_gmail_filter (Except.error e) :
        GmailServer.FilterResponse α) =
      { filter := none,
        error := some ("Error in create_gmail_filter: " ++ e) }) ∧
    ((JiraServer.extract_jira_issue env key (Except.error e)).1.summary
        = "" ∧
     (JiraServer.extract_jira_issue env key
        (Except.error e)).1.description = "" ∧
     ((JiraServer.extract_jira_issue env key
        (Except.error e)).1.error).isSome = true) ∧
    ((CalendarServer.list_calendars (Except.error e) :
        CalendarServer.CalendarsResponse α) =
      { calendars := [],
        error := some ("Error in list_calendars: " ++ e) } ∧
     (CalendarServer.get_calendar (Except.error e) :
        CalendarServer.CalendarResponse α) =
      { calendar := none,
        error := some ("Error in get_calendar: " ++ e) } ∧
     (CalendarServer.create_calendar (Except.error e) :
        CalendarServer.CalendarResponse α) =
      { calendar := none,
        error := some ("Error in create_calendar: " ++ e) } ∧
     CalendarServer.delete_calendar (Except.error e) =
      { success := false,
        error := some ("Error in delete_calendar: " ++ e) } ∧
     (CalendarServer.list_events (Except.error e) :
        CalendarServer.EventsResponse α) =
      { events := [],
        error := some ("Error in list_events: " ++ e) } ∧
     (CalendarServer.get_event (Except.error e) :
        CalendarServer.EventResponse α) =
      { event := none,
        error := some ("Error in get_event: " ++ e) } ∧
     (CalendarServer.create_event (Except.error e) :
        CalendarServer.EventResponse α) =
      { event := none,
        error := some ("Error in create_event: " ++ e) } ∧
     (CalendarServer.update_event (Except.error e) :
        CalendarServer.EventResponse α) =
      { event := none,
        error := some ("Error in update_event: " ++ e) } ∧
     CalendarServer.delete_event (Except.error e) =
      { success := false,
        error := some ("Error in delete_event: " ++ e) } ∧
     (CalendarServer.find_free_busy (Except.error e) :
        CalendarServer.FreeBusyResponse α) =
      { calendars := [],
        error := some ("Error in find_free_busy: " ++ e) } ∧
     (CalendarServer.quick_add_event (Except.error e) :
        CalendarServer.EventResponse α) =
      { event := none,
        error := some ("Error in quick_add_event: " ++ e) } ∧
     CalendarServer.authenticate_calendar (Except.error e) =
      { authenticated := false,
        message := "Authentication failed due to an error",
        error := some ("Error in authenticate_calendar: " ++ e) }) ∧
    ((DriveServer.list_drive_files (Except.error e) :
        DriveServer.DriveFilesResponse α) =
      { files := [],
        error := some ("Error in list_drive_files: " ++ e) } ∧
     (DriveServer.get_file_metadata (Except.error e) :
        DriveServer.FileMetadataResponse α) =
      { metadata := none,
        error := some ("Error in get_file_metadata: " ++ e) } ∧
     (DriveServer.create_drive_folder (Except.error e) :
        DriveServer.FolderResponse α) =
      { folder := none,
        error := some ("Error in create_drive_folder: " ++ e) } ∧
     (DriveServer.create_drive_document (Except.error e) :
        DriveServer.DocumentResponse α) =
      { document := none,
        error := some ("Error in create_drive_document: " ++ e) } ∧
     (DriveServer.create_drive_spreadsheet (Except.error e) :
        DriveServer.SpreadsheetResponse α) =
      { spreadsheet := none,
        error := some ("Error in create_drive_spreadsheet: " ++ e) } ∧
     (DriveServer.create_drive_presentation (Except.error e) :
        DriveServer.PresentationResponse α) =
      { presentation := none,
        error :=
          some ("Error in create_drive_presentation: " ++ e) } ∧
     DriveServer.download_drive_file (Except.error e) =
      { content := none, mime_type := none, file_name := none,
        error := some ("Error in download_drive_file: " ++ e) } ∧
     DriveServer.delete_drive_file (Except.error e) =
      { success := false,
        error := some ("Error in delete_drive_file: " ++ e) } ∧
     (DriveServer.share_drive_file (Except.error e) :
        DriveServer.ShareFileResponse α) =
      { permission := none,
        error := some ("Error in share_drive_file: " ++ e) } ∧
     (DriveServer.upload_file_to_drive (Except.error e) :
        DriveServer.UploadFileResponse α) =
      { file := none,
        error := some ("Error in upload_file_to_drive: " ++ e) } ∧
     DriveServer.authenticate_drive (Except.error e) =
      { authenticated := false,
        message := "Unexpected error during authentication",
        error := some ("Error in authenticate_drive: " ++ e) } ∧
     (DriveServer.get_document_content_tool (Except.error e) :
        DriveServer.DocumentContentResponse α) =
      { content := none,
        error :=
          some ("Error in get_document_content_tool: " ++ e) } ∧
     (DriveServer.update_document_content_tool (Except.error e) :
        DriveServer.UpdateDocumentResponse α) =
      { result := none,
        error :=
          some ("Error in update_document_content_tool: " ++ e) } ∧
     (DriveServer.get_spreadsheet_content_tool (Except.error e) :
        DriveServer.SpreadsheetContentResponse α) =
      { content := none,
        error :=
          some ("Error in get_spreadsheet_content_tool: " ++ e) } ∧
     (DriveServer.update_spreadsheet_content_tool (Except.error e) :
        DriveServer.UpdateSpreadsheetResponse α) =
      { result := none,
        error :=
          some ("Error in update_spreadsheet_content_tool: " ++ e) } ∧
     (DriveServer.update_spreadsheet_values_tool (Except.error e) :
        DriveServer.UpdateSpreadsheetValuesResponse α) =
      { result := none,
        error :=
          some ("Error in update_spreadsheet_values_tool: " ++ e) } ∧
     (DriveServer.get_presentation_content_tool (Except.error e) :
        DriveServer.PresentationContentResponse α) =
      { content := none,
        error :=
          some ("Error in get_presentation_content_tool: " ++ e) } ∧
     (DriveServer.update_presentation_content_tool (Except.error e) :
        DriveServer.UpdatePresentationResponse α) =
      { result := none,
        error :=
          some ("Error in update_presentation_content_tool: "
            ++ e) } ∧
     (DriveServer.move_drive_file (Except.error e) :
        DriveServer.MoveFileResponse α) =
      { file := none,
        error := some ("Error in move_drive_file: " ++ e) }) ∧
    (VideoServer.transcribe_video (Except.error e) =
      { transcript := "",
        error := some ("Error transcribing video: " ++ e) } ∧
     VideoServer.summarize_video (Except.error e) =
      { summary := "",
        error := some ("Error summarizing video: " ++ e) }) := by
  refine ⟨?_, ?_, ?_, ?_, ?_⟩
  · exact ⟨rfl, rfl, rfl, rfl, rfl, rfl, rfl, rfl, rfl, rfl, rfl,
      rfl, rfl, rfl, rfl, rfl, rfl, rfl, rfl, rfl, rfl⟩
  · refine ⟨?_, ?_, ?_⟩ <;>
      (unfold JiraServer.extract_jira_issue; dsimp only; split <;> simp)
  · exact ⟨rfl, rfl, rfl, rfl, rfl, rfl, rfl, rfl, rfl, rfl, rfl, rfl⟩
  · exact ⟨rfl, rfl, rfl, rfl, rfl, rfl, rfl, rfl, rfl, rfl, rfl,
      rfl, rfl, rfl, rfl, rfl, rfl, rfl, rfl⟩
  · exact ⟨rfl, rfl⟩

/-- Witness for C2 at a concrete exception text, instantiating the
first enumerated tool. -/
theorem C2_amended_witness :
    GmailServer.list_gmail_messages (Except.error "boom") =
      { messages := [],
        error := some ("Error in list_gmail_messages: " ++ "boom") } :=
  (C2_amended Unit "boom" (fun _ => none)
    { base_url := none, instance_url := none, email := none,
      username := none, api_token := none } "K").1.1

/-- The helper list_messages never reports success with an empty list:
each of its paths either sets a non-None error with an empty list or
returns the non-empty processed list with error None. -/
theorem list_messages_ok_nonempty (authOk : Bool) (query : String)
    (lo : Except String (List GmailHelper.MsgRef))
    (go : String → Except String GmailHelper.RawMessage) :
    (GmailHelper.list_messages authOk query lo go).error = none →
    (GmailHelper.list_messages authOk query lo go).messages ≠ [] := by
  unfold GmailHelper.list_messages
  split
  · intro h; simp_all
  · split
    · intro h; simp_all
    · split
      · intro h; simp_all
      · dsimp only
        split
        · intro h; simp_all
        · intro _
          next hne =>
            simp_all [List.isEmpty_iff]

/-- C8: the list_gmail_messages tool reports error None exactly when
the returned message list is non-empty; empty matches and wholly failed
retrievals surface as a non-None error with an empty list. -/
theorem C8_error_iff_nonempty (authOk : Bool) (query : String)
    (lo : Except String (List GmailHelper.MsgRef))
    (go : String → Except String GmailHelper.RawMessage) :
    (GmailServer.list_gmail_messages (Except.ok
        (GmailHelper.list_messages authOk query lo go))).error = none ↔
    (GmailServer.list_gmail_messages (Except.ok
        (GmailHelper.list_messages authOk query lo go))).messages
      ≠ [] := by
  have hlm := list_messages_ok_nonempty authOk query lo go
  unfold GmailServer.list_gmail_messages
  cases hres : (GmailHelper.list_messages authOk query lo go).error with
  | some err => simp [hres]
  | none =>
    simp only [hres]
    simpa using hlm hres

/-- Witness for C8 at a concrete failing search. -/
theorem C8_error_iff_nonempty_witness :
    (GmailServer.list_gmail_messages (Except.ok
        (GmailHelper.list_messages false "" (Except.error "")
          (fun _ => Except.error "")))).error = none ↔
    (GmailServer.list_gmail_messages (Except.ok
        (GmailHelper.list_messages false "" (Except.error "")
          (fun _ => Except.error "")))).messages ≠ [] :=
  C8_error_iff_nonempty false "" (Except.error "")
    (fun _ => Except.error "")

/-- A successful run of the pagination loop returns the accumulator
followed by the records of the pages the loop consumed, and a call
count of one per consumed page beyond the starting one. -/
theorem historyLoopAux_ok (rest : List GmailHelper.HistoryPage) :
    ∀ (tok : Option String) (acc : List GmailHelper.HistoryRecord)
      (n : Nat) (hist : List GmailHelper.HistoryRecord) (m : Nat),
      GmailHelper.historyLoopAux tok rest acc n = (Except.ok hist, m) →
      hist = acc ++
        (if tok.isSome then specPagesRecords rest else []) ∧
      m = n + (if tok.isSome then specPagesConsumed rest else 0) := by
  induction rest with
  | nil =>
    intro tok acc n hist m h
    cases tok with
    | none =>
      simp [GmailHelper.historyLoopAux] at h
      simp [h.1, h.2]
    | some t => simp [GmailHelper.historyLoopAux] at h
  | cons q rest2 ih =>
    intro tok acc n hist m h
    cases tok with
    | none =>
      simp [GmailHelper.historyLoopAux] at h
      simp [h.1, h.2]
    | some t =>
      have hstep : GmailHelper.historyLoopAux (some t) (q :: rest2) acc n =
          GmailHelper.historyLoopAux q.nextPageToken rest2
            (acc ++ q.history) (n + 1) := rfl
      rw [hstep] at h
      obtain ⟨h1, h2⟩ := ih q.nextPageToken (acc ++ q.history) (n + 1)
        hist m h
      refine ⟨?_, ?_⟩
      · rw [h1]
        cases hq : q.nextPageToken.isSome <;>
          simp [hq, specPagesRecords]
      · rw [h2]
        cases hq : q.nextPageToken.isSome <;>
          simp [hq, specPagesConsumed] <;> omega

/-- C1 counterexample: with a non-empty start_history_id and a first
response carrying a nextPageToken, get_history issues two
history().list requests, not one, and returns the records of both
pages merged into a single list. -/
theorem C1_counterexample :
    (GmailHelper.get_history true (some "100") (Except.error "")
      [⟨[⟨"101", none, none, none, none⟩], some "tok"⟩,
       ⟨[⟨"102", none, none, none, none⟩], none⟩]).listCalls = 2 ∧
    ¬ (GmailHelper.get_history true (some "100") (Except.error "")
      [⟨[⟨"101", none, none, none, none⟩], some "tok"⟩,
       ⟨[⟨"102", none, none, none, none⟩], none⟩]).listCalls = 1 ∧
    (GmailHelper.get_history true (some "100") (Except.error "")
      [⟨[⟨"101", none, none, none, none⟩], some "tok"⟩,
       ⟨[⟨"102", none, none, none, none⟩], none⟩]).history =
      [⟨"101", none, none, none, none⟩, ⟨"102", none, none, none, none⟩] := by
  refine ⟨by decide, by decide, by decide⟩

/-- C1 amended: with a non-empty start_history_id, a successful
get_history issues one history().list request for the first page plus
one per nextPageToken, and returns the concatenation, in order, of the
records of the retrieved pages, each record unchanged. -/
theorem C1_amended (s : String)
    (po : Except String GmailHelper.GmailProfile)
    (pages : List GmailHelper.HistoryPage)
    (hs : s ≠ "")
    (hok : (GmailHelper.get_history true (some s) po pages).error
      = none) :
    (GmailHelper.get_history true (some s) po pages).history =
      specPagesRecords pages ∧
    (GmailHelper.get_history true (some s) po pages).listCalls =
      specPagesConsumed pages := by
  have htr : optStrTruthy (some s) = true := by
    simpa [optStrTruthy] using hs
  rcases hp : GmailHelper.historyPaginate pages with ⟨fst, n⟩
  cases fst with
  | error e =>
    exfalso
    unfold GmailHelper.get_history at hok
    rw [hp] at hok
    simp [htr] at hok
  | ok hist =>
    have hres : GmailHelper.get_history true (some s) po pages =
        { history := hist,
          latest_history_id := some (((hist.getLast?).map
            GmailHelper.HistoryRecord.hid).getD ((some s).getD "")),
          error := none, listCalls := n } := by
      unfold GmailHelper.get_history
      rw [hp]
      simp [htr]
    rw [hres]
    cases pages with
    | nil =>
      unfold GmailHelper.historyPaginate at hp
      simp at hp
    | cons p rest =>
      unfold GmailHelper.historyPaginate at hp
      obtain ⟨h1, h2⟩ := historyLoopAux_ok rest p.nextPageToken
        p.history 1 hist n hp
      constructor
      · show hist = specPagesRecords (p :: rest)
        rw [h1]
        cases hq : p.nextPageToken.isSome <;>
          simp [hq, specPagesRecords]
      · show n = specPagesConsumed (p :: rest)
        rw [h2]
        cases hq : p.nextPageToken.isSome <;>
          simp [hq, specPagesConsumed]

/-- Witness for the amended C1 at a concrete page sequence. -/
theorem C1_amended_witness :
    ("100" : String) ≠ "" ∧
    (GmailHelper.get_history true (some "100") (Except.error "")
      [{ history := [], nextPageToken := none }]).error = none ∧
    ((GmailHelper.get_history true (some "100") (Except.error "")
        [{ history := [], nextPageToken := none }]).history =
      specPagesRecords [{ history := [], nextPageToken := none }] ∧
     (GmailHelper.get_history true (some "100") (Except.error "")
        [{ history := [], nextPageToken := none }]).listCalls =
      specPagesConsumed [{ history := [], nextPageToken := none }]) :=
  ⟨by decide, by decide,
   C1_amended "100" (Except.error "")
     [{ history := [], nextPageToken := none }] (by decide) (by decide)⟩

/-- C4 counterexample: a successful get_history run can carry the
non-None latest_history_id some "" (an empty record id on the last
page); the tool then returns success but, the saved value being tested
for truthiness rather than for None, leaves the history-id file
unwritten. -/
theorem C4_counterexample :
    (GmailHelper.get_history true (some "5") (Except.error "")
      [⟨[⟨"", none, none, none, none⟩], none⟩]).error = none ∧
    (GmailHelper.get_history true (some "5") (Except.error "")
      [⟨[⟨"", none, none, none, none⟩], none⟩]).latest_history_id =
      some "" ∧
    ¬ (GmailHelper.get_history true (some "5") (Except.error "")
      [⟨[⟨"", none, none, none, none⟩], none⟩]).latest_history_id =
      none ∧
    (GmailServer.get_gmail_history
      (GmailHelper.get_history true (some "5") (Except.error "")
        [⟨[⟨"", none, none, none, none⟩], none⟩])
      (fun _ => none)).2 GmailServer.defaultHistoryPath = none := by
  refine ⟨by decide, by decide, by decide, by decide⟩

/-- C4 amended: the get_gmail_history tool writes the history-id file
only on success: on a helper error it returns that error and leaves the
filesystem untouched; on success with a non-None, non-empty
latest_history_id exactly that id is persisted to the file; on success
with a None or empty latest_history_id the filesystem is untouched. -/
theorem C4_amended (r : GmailHelper.HistoryResult) (fs : FileSystem) :
    (∀ e, r.error = some e →
      GmailServer.get_gmail_history r fs =
        ({ history_records := [], latest_history_id := none,
           error := some e }, fs)) ∧
    (∀ l, r.error = none → r.latest_history_id = some l → l ≠ "" →
      (GmailServer.get_gmail_history r fs).2 =
        fsWrite fs GmailServer.defaultHistoryPath l ∧
      (GmailServer.get_gmail_history r fs).1.latest_history_id = some l ∧
      (GmailServer.get_gmail_history r fs).1.error = none) ∧
    (r.error = none →
      (r.latest_history_id = none ∨ r.latest_history_id = some "") →
      (GmailServer.get_gmail_history r fs).2 = fs) := by
  refine ⟨?_, ?_, ?_⟩
  · intro e he
    unfold GmailServer.get_gmail_history
    rw [he]
  · intro l he hl hne
    have htr : optStrTruthy (some l) = true := by
      simpa [optStrTruthy] using hne
    unfold GmailServer.get_gmail_history
    rw [he]
    simp [hl, htr, GmailHelper.save_history_id]
  · intro he hlat
    unfold GmailServer.get_gmail_history
    rw [he]
    have hfalsy : optStrTruthy r.latest_history_id = false := by
      rcases hlat with h | h <;> rw [h] <;> rfl
    simp [hfalsy]

/-- Witness for the amended C4 at concrete helper results. -/
theorem C4_amended_witness :
    GmailServer.get_gmail_history
        { history := [], latest_history_id := none,
          error := some "bad", listCalls := 0 } (fun _ => none) =
      ({ history_records := [], latest_history_id := none,
         error := some "bad" }, (fun _ => none)) ∧
    ((GmailServer.get_gmail_history
        { history := [], latest_history_id := some "42",
          error := none, listCalls := 1 } (fun _ => none)).2 =
      fsWrite (fun _ => none) GmailServer.defaultHistoryPath "42" ∧
     ((GmailServer.get_gmail_history
        { history := [], latest_history_id := some "42",
          error := none, listCalls := 1 }
        (fun _ => none)).1).latest_history_id = some "42" ∧
     (GmailServer.get_gmail_history
        { history := [], latest_history_id := some "42",
          error := none, listCalls := 1 } (fun _ => none)).1.error
        = none) ∧
    (GmailServer.get_gmail_history
        { history := [], latest_history_id := none,
          error := none, listCalls := 0 } (fun _ => none)).2 =
      (fun _ => none) :=
  ⟨(C4_amended { history := [], latest_history_id := none,
                 error := some "bad", listCalls := 0 }
      (fun _ => none)).1 "bad" rfl,
   (C4_amended { history := [], latest_history_id := some "42",
                 error := none, listCalls := 1 }
      (fun _ => none)).2.1 "42" rfl rfl (by decide),
   (C4_amended { history := [], latest_history_id := none,
                 error := none, listCalls := 0 }
      (fun _ => none)).2.2 rfl (Or.inl rfl)⟩

/-- The ADF flattening of the code coincides with the amended-claim
description: only paragraphs that carry a content list contribute. -/
theorem adfExtract_eq_amended (content : List JiraServer.ADFTop) :
    JiraServer.adfExtract content = adfDescriptionAmended content := by
  unfold JiraServer.adfExtract adfDescriptionAmended
  induction content using List.reverseRecOn with
  | nil => rfl
  | append_singleton l c ih =>
    rw [List.foldl_append, List.foldl_append, ih]
    cases hc : c.ccontent <;>
      by_cases hp : c.ctype = some "paragraph" <;>
        simp [hc, hp]

/-- C6 counterexample: on a 200 response whose ADF description holds a
single top-level element of type paragraph without a content list, the
code drops the element entirely and returns the empty description,
while the claimed concatenation yields one newline for the paragraph. -/
theorem C6_counterexample :
    (JiraServer.extract_jira_issue
      ⟨some "https://jira.example.com", none, some "user", none,
        some "tkn"⟩
      "PROJ-1"
      (Except.ok ⟨200, some ⟨some "s",
        JiraServer.JiraDesc.adf [⟨some "paragraph", none⟩]⟩,
        ""⟩)).1.description = "" ∧
    adfDescriptionClaimed [⟨some "paragraph", none⟩] = "\n" ∧
    ¬ (JiraServer.extract_jira_issue
      ⟨some "https://jira.example.com", none, some "user", none,
        some "tkn"⟩
      "PROJ-1"
      (Except.ok ⟨200, some ⟨some "s",
        JiraServer.JiraDesc.adf [⟨some "paragraph", none⟩]⟩,
        ""⟩)).1.description =
      adfDescriptionClaimed [⟨some "paragraph", none⟩] := by
  refine ⟨by decide, by decide, by decide⟩

/-- C6 amended: with complete (truthy) Jira credentials,
extract_jira_issue issues exactly one GET to
base_url/rest/api/3/issue/issue_key; a non-200 status yields empty
summary and description with a non-None error; a 200 response whose
description is an ADF dict yields the concatenation, over each
top-level content element of type paragraph that carries a content
list, of its text-node contents followed by a newline. -/
theorem C6_amended (env : JiraServer.JiraEnvVars) (key : String)
    (outcome : Except String JiraServer.JiraHttpResponse)
    (hb : optStrTruthy (JiraServer.pyOr env.base_url env.instance_url)
      = true)
    (he : optStrTruthy (JiraServer.pyOr env.email env.username) = true)
    (ht : optStrTruthy env.api_token = true) :
    (JiraServer.extract_jira_issue env key outcome).2 =
      [(JiraServer.pyOr env.base_url env.instance_url).getD "" ++
        "/rest/api/3/issue/" ++ key] ∧
    (∀ resp, outcome = Except.ok resp → resp.status_code ≠ 200 →
      (JiraServer.extract_jira_issue env key outcome).1.summary = "" ∧
      (JiraServer.extract_jira_issue env key outcome).1.description
        = "" ∧
      (JiraServer.extract_jira_issue env key outcome).1.error ≠ none) ∧
    (∀ resp fieldsv content, outcome = Except.ok resp →
      resp.status_code = 200 → resp.fields = some fieldsv →
      fieldsv.description = JiraServer.JiraDesc.adf content →
      (JiraServer.extract_jira_issue env key outcome).1.description =
        adfDescriptionAmended content ∧
      (JiraServer.extract_jira_issue env key outcome).1.error
        = none) := by
  refine ⟨?_, ?_, ?_⟩
  · unfold JiraServer.extract_jira_issue
    simp only [hb, he, ht]
    cases outcome with
    | error e => simp
    | ok resp =>
      dsimp only
      rw [if_neg (by simp)]
      split <;>
        cases hd : (resp.fields.map
          JiraServer.JiraFields.description).getD
            JiraServer.JiraDesc.absent <;> simp [hd]
  · intro resp hout h200
    subst hout
    unfold JiraServer.extract_jira_issue
    simp [hb, he, ht, h200]
  · intro resp fieldsv content hout h200 hf hd
    subst hout
    unfold JiraServer.extract_jira_issue
    simp [hb, he, ht, h200, hf, hd, adfExtract_eq_amended]

/-- Witness for the amended C6 at a concrete environment, key and
responses. -/
theorem C6_amended_witness :
    (JiraServer.extract_jira_issue
      ⟨some "https://jira.example.com", none, some "user", none,
        some "tkn"⟩ "PROJ-2"
      (Except.ok ⟨200, some ⟨some "s",
        JiraServer.JiraDesc.adf []⟩, ""⟩)).2 =
      [(JiraServer.pyOr (some "https://jira.example.com") none).getD ""
        ++ "/rest/api/3/issue/" ++ "PROJ-2"] ∧
    ((JiraServer.extract_jira_issue
      ⟨some "https://jira.example.com", none, some "user", none,
        some "tkn"⟩ "PROJ-2"
      (Except.ok ⟨200, some ⟨some "s",
        JiraServer.JiraDesc.adf []⟩, ""⟩)).1.description =
      adfDescriptionAmended [] ∧
     (JiraServer.extract_jira_issue
      ⟨some "https://jira.example.com", none, some "user", none,
        some "tkn"⟩ "PROJ-2"
      (Except.ok ⟨200, some ⟨some "s",
        JiraServer.JiraDesc.adf []⟩, ""⟩)).1.error = none) := by
  have h := C6_amended
    ⟨some "https://jira.example.com", none, some "user", none,
      some "tkn"⟩ "PROJ-2"
    (Except.ok ⟨200, some ⟨some "s", JiraServer.JiraDesc.adf []⟩, ""⟩)
    (by decide) (by decide) (by decide)
  exact ⟨h.1, h.2.2 ⟨200, some ⟨some "s", JiraServer.JiraDesc.adf []⟩,
    ""⟩ ⟨some "s", JiraServer.JiraDesc.adf []⟩ [] rfl rfl rfl rfl⟩

/-- The filled text color is the requested one, else the one of the
existing label color dict when present. -/
theorem fillTextColor_eq_or (req : GmailServer.UpdateLabelRequest)
    (target : GmailHelper.GmailLabel) :
    GmailServer.fillTextColor req target =
      req.text_color.or
        (target.color.bind GmailHelper.GmailLabelColor.textColor) := by
  unfold GmailServer.fillTextColor
  cases req.text_color <;> cases target.color <;> rfl

/-- The filled background color is the requested one, else the one of
the existing label color dict when present. -/
theorem fillBackgroundColor_eq_or (req : GmailServer.UpdateLabelRequest)
    (target : GmailHelper.GmailLabel) :
    GmailServer.fillBackgroundColor req target =
      req.background_color.or
        (target.color.bind
          GmailHelper.GmailLabelColor.backgroundColor) := by
  unfold GmailServer.fillBackgroundColor
  cases req.background_color <;> cases target.color <;> rfl

/-- With an authenticated listing, the update tool sends exactly the
assembled body when the target label is found. -/
theorem update_gmail_label_sends_body
    (req : GmailServer.UpdateLabelRequest)
    (labels : List GmailHelper.GmailLabel)
    (target : GmailHelper.GmailLabel)
    (uApi : Except String GmailHelper.GmailLabel)
    (hfind : labels.find? (fun l => l.lid = some req.label_id)
      = some target) :
    (GmailServer.update_gmail_label req true (Except.ok labels)
      uApi).2 = some (GmailServer.buildUpdatedLabel req target) := by
  cases uApi <;>
    simp [GmailServer.update_gmail_label, GmailHelper.list_labels,
      GmailHelper.update_label, hfind]

/-- C10: update_gmail_label preserves every field the request leaves
unset, copying name and the two visibilities from the existing label;
a color dict is included only when some color was requested and both
filled colors are non-empty; a label_id matching no existing label
produces an error and no update call. -/
theorem C10_update_label (req : GmailServer.UpdateLabelRequest)
    (labels : List GmailHelper.GmailLabel)
    (uApi : Except String GmailHelper.GmailLabel) :
    (∀ target,
      labels.find? (fun l => l.lid = some req.label_id) = some target →
      ∃ b, (GmailServer.update_gmail_label req true (Except.ok labels)
          uApi).2 = some b ∧
        b.bname = req.uname.or target.lname ∧
        b.messageListVisibility =
          req.message_list_visibility.or target.messageListVisibility ∧
        b.labelListVisibility =
          req.label_list_visibility.or target.labelListVisibility ∧
        (∀ t bg, b.color = some (t, bg) →
          (req.text_color.isSome ∨ req.background_color.isSome) ∧
          req.text_color.or
            (target.color.bind GmailHelper.GmailLabelColor.textColor)
            = some t ∧ t ≠ "" ∧
          req.background_color.or
            (target.color.bind
              GmailHelper.GmailLabelColor.backgroundColor)
            = some bg ∧ bg ≠ "") ∧
        (req.text_color = none → req.background_color = none →
          b.color = none)) ∧
    (labels.find? (fun l => l.lid = some req.label_id) = none →
      (GmailServer.update_gmail_label req true (Except.ok labels)
        uApi).1.label = none ∧
      (GmailServer.update_gmail_label req true (Except.ok labels)
        uApi).1.error ≠ none ∧
      (GmailServer.update_gmail_label req true (Except.ok labels)
        uApi).2 = none) := by
  constructor
  · intro target hfind
    refine ⟨GmailServer.buildUpdatedLabel req target,
      update_gmail_label_sends_body req labels target uApi hfind,
      ?_, ?_, ?_, ?_, ?_⟩
    · cases hu : req.uname <;>
        simp [GmailServer.buildUpdatedLabel, hu, Option.or]
    · cases hv : req.message_list_visibility <;>
        simp [GmailServer.buildUpdatedLabel, hv, Option.or]
    · cases hv : req.label_list_visibility <;>
        simp [GmailServer.buildUpdatedLabel, hv, Option.or]
    · intro t bg hcol
      unfold GmailServer.buildUpdatedLabel at hcol
      dsimp only at hcol
      by_cases hreq : req.text_color.isSome ∨ req.background_color.isSome
      · rw [if_pos hreq] at hcol
        refine ⟨hreq, ?_⟩
        rw [← fillTextColor_eq_or, ← fillBackgroundColor_eq_or]
        cases htc : GmailServer.fillTextColor req target with
        | none =>
          rw [htc] at hcol
          dsimp only at hcol
          exact absurd hcol (by simp)
        | some t0 =>
          cases hbc : GmailServer.fillBackgroundColor req target with
          | none =>
            rw [htc, hbc] at hcol
            dsimp only at hcol
            exact absurd hcol (by simp)
          | some b0 =>
            rw [htc, hbc] at hcol
            dsimp only at hcol
            by_cases hne : t0 ≠ "" ∧ b0 ≠ ""
            · rw [if_pos hne] at hcol
              have hpair := Option.some.inj hcol
              have ht0 : t0 = t := congrArg Prod.fst hpair
              have hb0 : b0 = bg := congrArg Prod.snd hpair
              subst ht0
              subst hb0
              exact ⟨rfl, hne.1, rfl, hne.2⟩
            · rw [if_neg hne] at hcol
              exact absurd hcol (by simp)
      · rw [if_neg hreq] at hcol
        exact absurd hcol (by simp)
    · intro htc hbc
      unfold GmailServer.buildUpdatedLabel
      dsimp only
      rw [if_neg (by simp [htc, hbc])]
  · intro hfind
    refine ⟨?_, ?_, ?_⟩ <;>
      simp [GmailServer.update_gmail_label, GmailHelper.list_labels,
        hfind]

/-- Witness for C10 at a concrete request and label list, in both the
found and the not-found branch. -/
theorem C10_update_label_witness :
    (∃ b, (GmailServer.update_gmail_label
        ⟨"L1", none, some "#ffffff", none, none, none⟩ true
        (Except.ok [⟨some "L1", some "Work", some "show",
          some "labelShow",
          some ⟨some "#000000", some "#bbbbbb"⟩⟩])
        (Except.error "down")).2 = some b ∧
      b.bname = (none : Option String).or (some "Work") ∧
      b.messageListVisibility =
        (none : Option String).or (some "show") ∧
      b.labelListVisibility =
        (none : Option String).or (some "labelShow") ∧
      (∀ t bg, b.color = some (t, bg) →
        ((some "#ffffff" : Option String).isSome ∨
          (none : Option String).isSome) ∧
        (some "#ffffff" : Option String).or
          ((some (⟨some "#000000", some "#bbbbbb"⟩ :
            GmailHelper.GmailLabelColor)).bind
            GmailHelper.GmailLabelColor.textColor) = some t ∧ t ≠ "" ∧
        (none : Option String).or
          ((some (⟨some "#000000", some "#bbbbbb"⟩ :
            GmailHelper.GmailLabelColor)).bind
            GmailHelper.GmailLabelColor.backgroundColor) = some bg ∧
          bg ≠ "") ∧
      ((some "#ffffff" : Option String) = none →
        (none : Option String) = none → b.color = none)) ∧
    ((GmailServer.update_gmail_label
        ⟨"L9", none, none, none, none, none⟩ true
        (Except.ok []) (Except.error "down")).1.label = none ∧
     (GmailServer.update_gmail_label
        ⟨"L9", none, none, none, none, none⟩ true
        (Except.ok []) (Except.error "down")).1.error ≠ none ∧
     (GmailServer.update_gmail_label
        ⟨"L9", none, none, none, none, none⟩ true
        (Except.ok []) (Except.error "down")).2 = none) :=
  ⟨(C10_update_label ⟨"L1", none, some "#ffffff", none, none, none⟩
      [⟨some "L1", some "Work", some "show", some "labelShow",
        some ⟨some "#000000", some "#bbbbbb"⟩⟩]
      (Except.error "down")).1
      ⟨some "L1", some "Work", some "show", some "labelShow",
        some ⟨some "#000000", some "#bbbbbb"⟩⟩ (by decide),
   (C10_update_label ⟨"L9", none, none, none, none, none⟩ []
      (Except.error "down")).2 rfl⟩
